import Mathlib

set_option linter.unusedVariables false

/- Shallow embedding of the back-lab REST backend: the mongoose models
   (src/models/User.js and src/models/Analisis.js) together with the Express
   route handlers (src/routes/users.js and the analisis router). The document
   store is a list of records; Date.now is an explicit `now : Nat` argument to
   every handler; the ObjectId generated for a new document is an explicit
   `newId : Nat` argument. Mongoose semantics embedded here: setters
   (trim, lowercase) run before validators; document validation runs before
   the insert, so a validation failure leaves the store unchanged; the
   pre-save hook fires on save (create) only, never on findByIdAndUpdate;
   findByIdAndUpdate with runValidators runs the validators of exactly the
   paths present in the update body; a unique-index conflict surfaces as a
   duplicate-key error (code 11000), which is not a ValidationError. -/

/-- JSON-like scalar values, used to compare response payloads field by field. -/
inductive JVal
  | jstr (s : String)
  | jnum (n : Int)
  | jbool (b : Bool)
  deriving DecidableEq, Repr

/-- Whitespace recognised by the trim setter. -/
def isTrimChar (c : Char) : Bool := c == ' ' || c == '\t' || c == '\n' || c == '\r'

/-- Model of the JS String.trim applied by the mongoose trim setter. -/
def trimStr (s : String) : String :=
  String.mk (((s.toList.dropWhile isTrimChar).reverse.dropWhile isTrimChar).reverse)

/-- Model of the mongoose lowercase setter. -/
def lowerStr (s : String) : String := String.mk (s.toList.map Char.toLower)

/-- The value stored for an email: lowercase setter after trim setter. -/
def normEmail (s : String) : String := lowerStr (trimStr s)

/-- A regex word character: ASCII letter, digit or underscore. -/
def isWordChar (c : Char) : Bool := c.isAlphanum || c == '_'

/-- A separator allowed between word blocks of the email regex. -/
def isSepChar (c : Char) : Bool := c == '.' || c == '-'

/-- Tail scanner for a word-block sequence: the argument records whether the
previous character was a word character; a separator may only follow a word
character and the sequence must end in a word character. -/
def localTail : Bool → List Char → Bool
  | prevWord, [] => prevWord
  | prevWord, c :: cs =>
    if isWordChar c then localTail true cs
    else if isSepChar c then prevWord && localTail false cs
    else false

/-- Recognises the local-part sublanguage of the schema email regex: a
nonempty string of word characters and single separators, starting and ending
in a word character with no two adjacent separators. -/
def localOk : List Char → Bool
  | [] => false
  | c :: cs => isWordChar c && localTail true cs

/-- Recognises a top-level-domain block: two or three word characters. -/
def tldOk (cs : List Char) : Bool :=
  (cs.length == 2 || cs.length == 3) && cs.all isWordChar

/-- Recognises the domain sublanguage of the schema email regex: a word-block
sequence, a dot, and a final block of two or three word characters. -/
def domainOk (cs : List Char) : Bool :=
  (List.range cs.length).any fun i =>
    cs.getD i ' ' == '.' && localOk (cs.take i) && tldOk (cs.drop (i + 1))

/-- Model of the schema email pattern from src/models/User.js. The source
regex anchors a local part, an at sign, and a domain ending in one or more
dot-plus-2-or-3-word-character groups; since every such group is itself a
valid word block, the language equals: local part, at sign, word-block
sequence, dot, final 2-or-3 word characters. -/
def validEmail (s : String) : Bool :=
  let cs := s.toList
  (List.range cs.length).any fun i =>
    cs.getD i ' ' == '@' && localOk (cs.take i) && domainOk (cs.drop (i + 1))

/-- A user document, after setters and defaults (src/models/User.js). -/
structure User where
  _id : Nat
  name : String
  email : String
  age : Option Int
  isActive : Bool
  createdAt : Nat
  updatedAt : Nat
  deriving DecidableEq, Repr

/-- A request body for the user routes: each schema path is optionally
present. -/
structure UserBody where
  name : Option String := none
  email : Option String := none
  age : Option Int := none
  isActive : Option Bool := none
  createdAt : Option Nat := none
  updatedAt : Option Nat := none
  deriving DecidableEq, Repr

/-- Validator messages for the name path (required, maxlength 50, after the
trim setter). Required fails for an absent path and for an empty string. -/
def nameErrors : Option String → List String
  | none => ["El nombre es obligatorio"]
  | some s =>
    let t := trimStr s
    if t.length == 0 then ["El nombre es obligatorio"]
    else if decide (t.length > 50) then ["El nombre no puede tener más de 50 caracteres"]
    else []

/-- Validator messages for the email path (required, match regex, after the
trim and lowercase setters). -/
def emailErrors : Option String → List String
  | none => ["El email es obligatorio"]
  | some s =>
    let t := normEmail s
    if t.length == 0 then ["El email es obligatorio"]
    else if validEmail t then []
    else ["Por favor ingresa un email válido"]

/-- Validator messages for the age path (min 0, max 120; the path is
optional). -/
def ageErrors : Option Int → List String
  | none => []
  | some a =>
    if decide (a < 0) then ["La edad no puede ser negativa"]
    else if decide (a > 120) then ["La edad no puede ser mayor a 120"]
    else []

/-- Messages of every violated user path on document validation (create):
all paths are validated, in schema order. -/
def userCreateErrors (b : UserBody) : List String :=
  nameErrors b.name ++ emailErrors b.email ++ ageErrors b.age

/-- Messages of every violated user path under runValidators on update:
only the paths present in the body are validated. -/
def userUpdateErrors (b : UserBody) : List String :=
  (if b.name.isSome then nameErrors b.name else []) ++
  (if b.email.isSome then emailErrors b.email else []) ++
  ageErrors b.age

/-- The document built by new User(req.body) followed by the pre-save hook:
setters and defaults applied, updatedAt overwritten with Date.now. -/
def newUser (now newId : Nat) (b : UserBody) : User :=
  { _id := newId
    name := trimStr (b.name.getD "")
    email := normEmail (b.email.getD "")
    age := b.age
    isActive := b.isActive.getD true
    createdAt := b.createdAt.getD now
    updatedAt := now }

/-- The getPublicProfile method of src/models/User.js, as the JSON object it
returns: key id (not _id), no updatedAt; an absent age is dropped. -/
def User.getPublicProfile (u : User) : List (String × JVal) :=
  ("id", JVal.jnum u._id) :: ("name", JVal.jstr u.name) ::
  ("email", JVal.jstr u.email) ::
  (match u.age with
   | none => []
   | some a => [("age", JVal.jnum a)]) ++
  [("isActive", JVal.jbool u.isActive), ("createdAt", JVal.jnum u.createdAt)]

/-- The stored user document as serialised by the get and update routes
(select -__v): every stored field under its stored key. -/
def User.toJson (u : User) : List (String × JVal) :=
  ("_id", JVal.jnum u._id) :: ("name", JVal.jstr u.name) ::
  ("email", JVal.jstr u.email) ::
  (match u.age with
   | none => []
   | some a => [("age", JVal.jnum a)]) ++
  [("isActive", JVal.jbool u.isActive), ("createdAt", JVal.jnum u.createdAt),
   ("updatedAt", JVal.jnum u.updatedAt)]

/-- Store-layer failures: a mongoose ValidationError carrying one message per
violated path, or a duplicate-key error (code 11000) from a unique index. -/
inductive DbErr
  | validation (msgs : List String)
  | duplicateKey (msg : String)
  deriving DecidableEq, Repr

/-- The message property of the store-layer error object. -/
def DbErr.message : DbErr → String
  | .validation msgs => "Validation failed: " ++ String.intercalate ", " msgs
  | .duplicateKey m => m

/-- Replace the first element satisfying the predicate. -/
def updateFirst (p : α → Bool) (f : α → α) : List α → List α
  | [] => []
  | x :: xs => if p x then f x :: xs else x :: updateFirst p f xs

/-- Remove the first element satisfying the predicate. -/
def removeFirst (p : α → Bool) : List α → List α
  | [] => []
  | x :: xs => if p x then xs else x :: removeFirst p xs

/-- The user save path: document validation, then the unique email index,
then the pre-save hook and the insert. -/
def User.save (st : List User) (now newId : Nat) (b : UserBody) :
    Except DbErr (User × List User) :=
  if userCreateErrors b = [] then
    if st.any (fun u => u.email == normEmail (b.email.getD "")) then
      .error (.duplicateKey "E11000 duplicate key error collection: users index: email_1")
    else
      let u := newUser now newId b
      .ok (u, st ++ [u])
  else .error (.validation (userCreateErrors b))

/-- Apply the present body paths to a stored document, through the setters;
no timestamp is touched unless the body itself carries one. -/
def applyUserBody (u : User) (b : UserBody) : User :=
  { _id := u._id
    name := match b.name with | some s => trimStr s | none => u.name
    email := match b.email with | some s => normEmail s | none => u.email
    age := match b.age with | some a => some a | none => u.age
    isActive := b.isActive.getD u.isActive
    createdAt := b.createdAt.getD u.createdAt
    updatedAt := b.updatedAt.getD u.updatedAt }

/-- findByIdAndUpdate with runValidators for users: update validators run
first, then the query; a missing id yields no document and no write; a
conflicting unique email on another document raises a duplicate-key error. -/
def User.findByIdAndUpdate (st : List User) (i : Nat) (b : UserBody) :
    Except DbErr (Option (User × List User)) :=
  if userUpdateErrors b = [] then
    match st.find? (fun u => u._id == i) with
    | none => .ok none
    | some u =>
      let dup := match b.email with
        | some e => st.any fun v => (v._id != i) && (v.email == normEmail e)
        | none => false
      if dup then
        .error (.duplicateKey "E11000 duplicate key error collection: users index: email_1")
      else
        let u' := applyUserBody u b
        .ok (some (u', updateFirst (fun v => v._id == i) (fun _ => u') st))
  else .error (.validation (userUpdateErrors b))

/-- Responses of the user routes, one constructor per envelope shape. -/
inductive UResp
  | listOk (count : Nat) (data : List User)
  | getOk (data : User)
  | createOk (message : String) (data : List (String × JVal))
  | updateOk (message : String) (data : User)
  | deleteOk (message : String)
  | notFound (error : String)
  | conflict (error : String)
  | invalid (error : String) (details : List String)
  | serverError (error : String) (details : String)
  deriving DecidableEq, Repr

/-- The HTTP status of each user response shape. -/
def UResp.status : UResp → Nat
  | .listOk _ _ => 200
  | .getOk _ => 200
  | .createOk _ _ => 201
  | .updateOk _ _ => 200
  | .deleteOk _ => 200
  | .notFound _ => 404
  | .conflict _ => 400
  | .invalid _ _ => 400
  | .serverError _ _ => 500

/-- The data array of a list response (empty for any other shape). -/
def UResp.listData : UResp → List User
  | .listOk _ d => d
  | _ => []

/-- GET /api/users: find isActive true. -/
def usersList (st : List User) : UResp :=
  let users := st.filter fun u => u.isActive
  .listOk users.length users

/-- GET /api/users/:id. -/
def usersGetById (st : List User) (i : Nat) : UResp :=
  match st.find? (fun u => u._id == i) with
  | some u => .getOk u
  | none => .notFound "Usuario no encontrado"

/-- POST /api/users: duplicate-key errors become a 400 naming the email,
ValidationError becomes a 400 with the per-path messages, success is a 201
carrying the public profile. -/
def usersCreate (st : List User) (now newId : Nat) (b : UserBody) :
    UResp × List User :=
  match User.save st now newId b with
  | .ok (u, st') => (.createOk "Usuario creado exitosamente" u.getPublicProfile, st')
  | .error (.validation msgs) => (.invalid "Errores de validación" msgs, st)
  | .error (.duplicateKey _) => (.conflict "El email ya está registrado", st)

/-- PUT /api/users/:id: the catch block maps a ValidationError to a 400 with
details and any other error, duplicate key included, to a 500. The handler
never reads the clock. -/
def usersUpdate (st : List User) (now : Nat) (i : Nat) (b : UserBody) :
    UResp × List User :=
  match User.findByIdAndUpdate st i b with
  | .ok none => (.notFound "Usuario no encontrado", st)
  | .ok (some (u, st')) => (.updateOk "Usuario actualizado exitosamente" u, st')
  | .error (.validation msgs) => (.invalid "Errores de validación" msgs, st)
  | .error e => (.serverError "Error al actualizar el usuario" e.message, st)

/-- DELETE /api/users/:id: findByIdAndUpdate of isActive to false (soft
delete); a missing id is a 404. The pre-save hook does not fire and the
handler never reads the clock. -/
def usersDelete (st : List User) (now : Nat) (i : Nat) : UResp × List User :=
  match st.find? (fun u => u._id == i) with
  | none => (.notFound "Usuario no encontrado", st)
  | some _ =>
    (.deleteOk "Usuario eliminado exitosamente",
     updateFirst (fun v => v._id == i) (fun u => { u with isActive := false }) st)

/-- An analysis document, after defaults (src/models/Analisis.js). -/
structure Analisis where
  _id : Nat
  numero_analisis : String
  fecha_analisis : Nat
  tipo_analisis : String
  laboratorio : String
  tecnico_responsable : String
  observaciones : String
  estado : String
  createdAt : Nat
  updatedAt : Nat
  deriving DecidableEq, Repr

/-- A request body for the analisis routes: each schema path is optionally
present. -/
structure AnalisisBody where
  numero_analisis : Option String := none
  fecha_analisis : Option Nat := none
  tipo_analisis : Option String := none
  laboratorio : Option String := none
  tecnico_responsable : Option String := none
  observaciones : Option String := none
  estado : Option String := none
  createdAt : Option Nat := none
  updatedAt : Option Nat := none
  deriving DecidableEq, Repr

/-- The four admissible estado values of the analisis schema. -/
def estadoEnum : List String := ["pendiente", "en_proceso", "completado", "cancelado"]

/-- Default mongoose message for a violated required path; required fails for
an absent path and for an empty string. -/
def requiredError (path : String) : Option String → List String
  | none => ["Path `" ++ path ++ "` is required."]
  | some s =>
    if s.length == 0 then ["Path `" ++ path ++ "` is required."] else []

/-- Default mongoose message for a value outside the estado enum; the path is
optional. -/
def estadoErrors : Option String → List String
  | none => []
  | some s =>
    if estadoEnum.contains s then []
    else ["`" ++ s ++ "` is not a valid enum value for path `estado`."]

/-- Messages of every violated analisis path on document validation (create),
in schema order. -/
def analisisCreateErrors (b : AnalisisBody) : List String :=
  requiredError "numero_analisis" b.numero_analisis ++
  requiredError "tipo_analisis" b.tipo_analisis ++
  requiredError "laboratorio" b.laboratorio ++
  requiredError "tecnico_responsable" b.tecnico_responsable ++
  estadoErrors b.estado

/-- Messages of every violated analisis path under runValidators on update:
only the paths present in the body are validated. -/
def analisisUpdateErrors (b : AnalisisBody) : List String :=
  (if b.numero_analisis.isSome then requiredError "numero_analisis" b.numero_analisis else []) ++
  (if b.tipo_analisis.isSome then requiredError "tipo_analisis" b.tipo_analisis else []) ++
  (if b.laboratorio.isSome then requiredError "laboratorio" b.laboratorio else []) ++
  (if b.tecnico_responsable.isSome then requiredError "tecnico_responsable" b.tecnico_responsable else []) ++
  estadoErrors b.estado

/-- The document built by new Analisis(req.body) followed by the pre-save
hook: defaults applied, updatedAt overwritten with Date.now. -/
def newAnalisis (now newId : Nat) (b : AnalisisBody) : Analisis :=
  { _id := newId
    numero_analisis := b.numero_analisis.getD ""
    fecha_analisis := b.fecha_analisis.getD now
    tipo_analisis := b.tipo_analisis.getD ""
    laboratorio := b.laboratorio.getD ""
    tecnico_responsable := b.tecnico_responsable.getD ""
    observaciones := b.observaciones.getD ""
    estado := b.estado.getD "pendiente"
    createdAt := b.createdAt.getD now
    updatedAt := now }

/-- The analisis save path: document validation, then the unique
numero_analisis index, then the pre-save hook and the insert. -/
def Analisis.save (st : List Analisis) (now newId : Nat) (b : AnalisisBody) :
    Except DbErr (Analisis × List Analisis) :=
  if analisisCreateErrors b = [] then
    if st.any (fun a => a.numero_analisis == b.numero_analisis.getD "") then
      .error (.duplicateKey "E11000 duplicate key error collection: analisis index: numero_analisis_1")
    else
      let a := newAnalisis now newId b
      .ok (a, st ++ [a])
  else .error (.validation (analisisCreateErrors b))

/-- Apply the present body paths to a stored analisis document; no timestamp
is touched unless the body itself carries one. -/
def applyAnalisisBody (a : Analisis) (b : AnalisisBody) : Analisis :=
  { _id := a._id
    numero_analisis := b.numero_analisis.getD a.numero_analisis
    fecha_analisis := b.fecha_analisis.getD a.fecha_analisis
    tipo_analisis := b.tipo_analisis.getD a.tipo_analisis
    laboratorio := b.laboratorio.getD a.laboratorio
    tecnico_responsable := b.tecnico_responsable.getD a.tecnico_responsable
    observaciones := b.observaciones.getD a.observaciones
    estado := b.estado.getD a.estado
    createdAt := b.createdAt.getD a.createdAt
    updatedAt := b.updatedAt.getD a.updatedAt }

/-- findByIdAndUpdate with runValidators for analisis: update validators run
first, then the query; a missing id yields no document and no write; a
conflicting unique numero_analisis on another document raises a duplicate-key
error. -/
def Analisis.findByIdAndUpdate (st : List Analisis) (i : Nat) (b : AnalisisBody) :
    Except DbErr (Option (Analisis × List Analisis)) :=
  if analisisUpdateErrors b = [] then
    match st.find? (fun a => a._id == i) with
    | none => .ok none
    | some a =>
      let dup := match b.numero_analisis with
        | some n => st.any fun v => (v._id != i) && (v.numero_analisis == n)
        | none => false
      if dup then
        .error (.duplicateKey "E11000 duplicate key error collection: analisis index: numero_analisis_1")
      else
        let a' := applyAnalisisBody a b
        .ok (some (a', updateFirst (fun v => v._id == i) (fun _ => a') st))
  else .error (.validation (analisisUpdateErrors b))

/-- Responses of the analisis routes, one constructor per envelope shape. -/
inductive AResp
  | listOk (count : Nat) (data : List Analisis)
  | getOk (data : Analisis)
  | createOk (message : String) (data : Analisis)
  | updateOk (message : String) (data : Analisis)
  | deleteOk (message : String)
  | notFound (error : String)
  | conflict (error : String)
  | invalid (error : String) (details : List String)
  | serverError (error : String) (details : String)
  deriving DecidableEq, Repr

/-- The HTTP status of each analisis response shape. -/
def AResp.status : AResp → Nat
  | .listOk _ _ => 200
  | .getOk _ => 200
  | .createOk _ _ => 201
  | .updateOk _ _ => 200
  | .deleteOk _ => 200
  | .notFound _ => 404
  | .conflict _ => 400
  | .invalid _ _ => 400
  | .serverError _ _ => 500

/-- GET /api/analisis: optional estado and laboratorio query filters; an
empty query string is falsy in JS, so it applies no filter. -/
def analisisList (st : List Analisis) (estado laboratorio : Option String) : AResp :=
  let res := st.filter fun a =>
    (match estado with
     | some e => e == "" || a.estado == e
     | none => true) &&
    (match laboratorio with
     | some l => l == "" || a.laboratorio == l
     | none => true)
  .listOk res.length res

/-- GET /api/analisis/:id. -/
def analisisGetById (st : List Analisis) (i : Nat) : AResp :=
  match st.find? (fun a => a._id == i) with
  | some a => .getOk a
  | none => .notFound "Análisis no encontrado"

/-- POST /api/analisis: duplicate-key errors become a 400 naming the analysis
number, ValidationError becomes a 400 with the per-path messages, success is
a 201 carrying the saved document. -/
def analisisCreate (st : List Analisis) (now newId : Nat) (b : AnalisisBody) :
    AResp × List Analisis :=
  match Analisis.save st now newId b with
  | .ok (a, st') => (.createOk "Análisis creado exitosamente" a, st')
  | .error (.validation msgs) => (.invalid "Errores de validación" msgs, st)
  | .error (.duplicateKey _) => (.conflict "El número de análisis ya existe", st)

/-- PUT /api/analisis/:id: the catch block maps every store error, a
ValidationError included, to a 500 with the error message. The handler never
reads the clock. -/
def analisisUpdate (st : List Analisis) (now : Nat) (i : Nat) (b : AnalisisBody) :
    AResp × List Analisis :=
  match Analisis.findByIdAndUpdate st i b with
  | .ok none => (.notFound "Análisis no encontrado", st)
  | .ok (some (a, st')) => (.updateOk "Análisis actualizado exitosamente" a, st')
  | .error e => (.serverError "Error al actualizar el análisis" e.message, st)

/-- DELETE /api/analisis/:id: findByIdAndDelete (hard delete); a missing id
is a 404. -/
def analisisDelete (st : List Analisis) (now : Nat) (i : Nat) : AResp × List Analisis :=
  match st.find? (fun a => a._id == i) with
  | none => (.notFound "Análisis no encontrado", st)
  | some _ =>
    (.deleteOk "Análisis eliminado exitosamente",
     removeFirst (fun a => a._id == i) st)

/-- Sample user Ana, id 1. -/
def uAna : User :=
  { _id := 1, name := "Ana", email := "ana@x.com", age := some 30,
    isActive := true, createdAt := 3, updatedAt := 5 }

/-- Sample user Beto, id 2. -/
def uBeto : User :=
  { _id := 2, name := "Beto", email := "beto@x.com", age := none,
    isActive := true, createdAt := 4, updatedAt := 4 }

/-- Sample analysis record, id 1. -/
def aLab1 : Analisis :=
  { _id := 1, numero_analisis := "A-1", fecha_analisis := 2,
    tipo_analisis := "sangre", laboratorio := "LabA",
    tecnico_responsable := "Tec", observaciones := "",
    estado := "pendiente", createdAt := 2, updatedAt := 2 }

/-- Sample analysis record, id 2. -/
def aLab2 : Analisis :=
  { _id := 2, numero_analisis := "A-2", fecha_analisis := 2,
    tipo_analisis := "orina", laboratorio := "LabB",
    tecnico_responsable := "Tec", observaciones := "",
    estado := "completado", createdAt := 2, updatedAt := 2 }

/-- The user stored by the concrete create of the C8 scenario. -/
def uC8 : User :=
  { _id := 7, name := "Ana", email := "ana@x.com", age := some 30,
    isActive := true, createdAt := 100, updatedAt := 100 }

/-- An analisis document has a valid estado when it lies in the enum. -/
def estadoValid (a : Analisis) : Bool := estadoEnum.contains a.estado

/-- Sample inactive user, id 3. -/
def uCarla : User :=
  { _id := 3, name := "Carla", email := "carla@x.com", age := none,
    isActive := false, createdAt := 4, updatedAt := 4 }

/-- Sample valid user create body. -/
def buW : UserBody := { name := some "Ana", email := some "ana@x.com", age := some 30 }

/-- Sample user update body carrying only a name. -/
def ubW : UserBody := { name := some "Bob" }

/-- User update body that re-activates a record. -/
def ubAct : UserBody := { isActive := some true }

/-- User update body whose email collides with the stored user Ana. -/
def ubDup : UserBody := { email := some "ana@x.com" }

/-- Sample valid analisis create body with a fresh number. -/
def baW : AnalisisBody :=
  { numero_analisis := some "A-9", tipo_analisis := some "sangre",
    laboratorio := some "LabA", tecnico_responsable := some "Tec" }

/-- Analisis create body whose number collides with the stored record A-1. -/
def baDup : AnalisisBody :=
  { numero_analisis := some "A-1", tipo_analisis := some "sangre",
    laboratorio := some "LabA", tecnico_responsable := some "Tec" }

/-- Analisis update body whose number collides with the stored record A-1. -/
def abDup : AnalisisBody := { numero_analisis := some "A-1" }

/-- User update body carrying a fresh name and a non-conflicting email. -/
def ubMail : UserBody := { name := some "Bob", email := some "bob@x.com" }

/-- Analisis body carrying an estado outside the enum. -/
def bBad : AnalisisBody := { estado := some "aprobado" }

/-- Analisis update body carrying a valid estado. -/
def bUpd : AnalisisBody := { estado := some "completado" }

theorem find?_append_none {p : α → Bool} {l₁ : List α} (l₂ : List α)
    (h : l₁.find? p = none) : (l₁ ++ l₂).find? p = l₂.find? p := by
  induction l₁ with
  | nil => rfl
  | cons x xs ih =>
    cases hx : p x with
    | true => simp [List.find?, hx] at h
    | false =>
      simp only [List.cons_append, List.find?, hx] at h ⊢
      exact ih h

theorem find?_updateFirst_map {p : α → Bool} {f : α → α}
    (hpf : ∀ a, p (f a) = p a) (st : List α) :
    (updateFirst p f st).find? p = (st.find? p).map f := by
  induction st with
  | nil => rfl
  | cons x xs ih =>
    cases hx : p x with
    | true => simp [updateFirst, List.find?, hx, hpf x]
    | false => simp [updateFirst, List.find?, hx, ih]

theorem mem_updateFirst_self {p : α → Bool} {c : α} {st : List α} {u : α}
    (h : st.find? p = some u) : c ∈ updateFirst p (fun _ => c) st := by
  induction st with
  | nil => simp [List.find?] at h
  | cons x xs ih =>
    cases hx : p x with
    | true => simp [updateFirst, hx]
    | false =>
      simp only [List.find?, hx] at h
      simp [updateFirst, hx, ih h]

theorem eq_of_mem_updateFirst {k : α → Nat} {i : Nat} {f : α → α} {st : List α} {u v : α}
    (hnd : (st.map k).Nodup)
    (hfind : st.find? (fun x => k x == i) = some u)
    (hv : v ∈ updateFirst (fun x => k x == i) f st) (hkey : k v = i) : v = f u := by
  induction st with
  | nil => simp [List.find?] at hfind
  | cons x xs ih =>
    rw [List.map_cons, List.nodup_cons] at hnd
    cases hx : (k x == i) with
    | true =>
      have hxi : k x = i := by simpa using hx
      simp only [List.find?, hx] at hfind
      simp [updateFirst, hx] at hv
      rcases hv with h | h
      · rw [h, Option.some.inj hfind]
      · exfalso
        apply hnd.1
        rw [hxi, ← hkey]
        exact List.mem_map_of_mem k h
    | false =>
      simp only [List.find?, hx] at hfind
      simp [updateFirst, hx] at hv
      rcases hv with h | h
      · exfalso
        have hne : k x ≠ i := by simpa using hx
        exact hne (h ▸ hkey)
      · exact ih hnd.2 hfind h

theorem mem_of_mem_updateFirst_const {p : α → Bool} {c : α} {st : List α} {v : α}
    (hv : v ∈ updateFirst p (fun _ => c) st) : v ∈ st ∨ v = c := by
  induction st with
  | nil => simp [updateFirst] at hv
  | cons x xs ih =>
    cases hx : p x with
    | true =>
      simp [updateFirst, hx] at hv
      rcases hv with h | h
      · right; exact h
      · left; exact List.mem_cons_of_mem _ h
    | false =>
      simp [updateFirst, hx] at hv
      rcases hv with h | h
      · left; exact h ▸ List.mem_cons_self _ _
      · rcases ih h with h1 | h1
        · left; exact List.mem_cons_of_mem _ h1
        · right; exact h1

theorem mem_of_mem_removeFirst {p : α → Bool} {st : List α} {v : α}
    (hv : v ∈ removeFirst p st) : v ∈ st := by
  induction st with
  | nil => simp [removeFirst] at hv
  | cons x xs ih =>
    cases hx : p x with
    | true =>
      simp [removeFirst, hx] at hv
      exact List.mem_cons_of_mem _ hv
    | false =>
      simp [removeFirst, hx] at hv
      rcases hv with h | h
      · exact h ▸ List.mem_cons_self _ _
      · exact List.mem_cons_of_mem _ (ih h)

theorem find?_removeFirst_none {k : α → Nat} {i : Nat} {st : List α}
    (hnd : (st.map k).Nodup) :
    (removeFirst (fun x => k x == i) st).find? (fun x => k x == i) = none := by
  induction st with
  | nil => rfl
  | cons x xs ih =>
    rw [List.map_cons, List.nodup_cons] at hnd
    cases hx : (k x == i) with
    | true =>
      have hxi : k x = i := by simpa using hx
      have hrem : removeFirst (fun y => k y == i) (x :: xs) = xs := by
        simp [removeFirst, hx]
      rw [hrem, List.find?_eq_none]
      intro a ha h
      have ha2 : k a = i := by simpa using h
      apply hnd.1
      rw [hxi, ← ha2]
      exact List.mem_map_of_mem k ha
    | false =>
      have hrem : removeFirst (fun y => k y == i) (x :: xs) =
          x :: removeFirst (fun y => k y == i) xs := by
        simp [removeFirst, hx]
      rw [hrem]
      simp only [List.find?, hx]
      exact ih hnd.2

theorem estadoValid_newAnalisis (now newId : Nat) (b : AnalisisBody)
    (hv : analisisCreateErrors b = []) : estadoValid (newAnalisis now newId b) = true := by
  have hes : estadoErrors b.estado = [] := by
    unfold analisisCreateErrors at hv
    simp [List.append_eq_nil] at hv
    exact hv.2.2.2.2
  cases hb : b.estado with
  | none => simp [estadoValid, newAnalisis, hb, estadoEnum]
  | some e =>
    rw [hb] at hes
    simp [estadoErrors] at hes
    simp [estadoValid, newAnalisis, hb]
    exact hes

theorem estadoValid_applyAnalisisBody (a : Analisis) (b : AnalisisBody)
    (ha : estadoValid a = true) (hv : analisisUpdateErrors b = []) :
    estadoValid (applyAnalisisBody a b) = true := by
  have hes : estadoErrors b.estado = [] := by
    unfold analisisUpdateErrors at hv
    simp [List.append_eq_nil] at hv
    exact hv.2.2.2.2
  cases hb : b.estado with
  | none =>
    simpa [estadoValid, applyAnalisisBody, hb] using ha
  | some e =>
    rw [hb] at hes
    simp [estadoErrors] at hes
    simp [estadoValid, applyAnalisisBody, hb]
    exact hes

/-- C4: every record in the data array returned by the user list endpoint has
its active flag equal to true; no record with active false is included. -/
theorem c4_theorem (st : List User) (u : User)
    (h : u ∈ (usersList st).listData) : u.isActive = true := by
  simp [usersList, UResp.listData] at h
  exact h.2

theorem c4_witness :
    (uAna ∈ (usersList [uAna, uCarla]).listData) ∧ uAna.isActive = true :=
  ⟨by decide, c4_theorem [uAna, uCarla] uAna (by decide)⟩

/-- C1 counterexample: a successful PUT write performed at write time 10
persists the record with updatedAt still 5, its value before the write; the
handler write does not refresh the update timestamp. -/
theorem c1_counterexample :
    usersUpdate [uAna] 10 1 { name := some "Bob" } =
      (.updateOk "Usuario actualizado exitosamente" { uAna with name := "Bob" },
       [{ uAna with name := "Bob" }]) ∧
    ({ uAna with name := "Bob" } : User).updatedAt = 5 ∧ (5 : Nat) ≠ 10 :=
  ⟨by decide, rfl, by decide⟩

/-- C1 (amended): a create of either resource persists its record with
updatedAt refreshed to the write time by the pre-save hook, but both PUT
handlers write through findByIdAndUpdate, which does not fire the hook:
every successful update write of either resource whose body does not itself
carry updatedAt persists the record with its updatedAt unchanged. -/
theorem c1_theorem (stU stU' : List User) (stA stA' : List Analisis)
    (now newId i j : Nat) (bu : UserBody) (ba : AnalisisBody)
    (ub : UserBody) (ab : AnalisisBody) (u u' : User) (a a' : Analisis)
    (hbu : userCreateErrors bu = [])
    (hdu : stU.any (fun v => v.email == normEmail (bu.email.getD "")) = false)
    (hba : analisisCreateErrors ba = [])
    (hda : stA.any (fun v => v.numero_analisis == ba.numero_analisis.getD "") = false)
    (hfind : stU.find? (fun v => v._id == i) = some u)
    (hut : ub.updatedAt = none)
    (hupd : User.findByIdAndUpdate stU i ub = .ok (some (u', stU')))
    (hafind : stA.find? (fun v => v._id == j) = some a)
    (haut : ab.updatedAt = none)
    (haupd : Analisis.findByIdAndUpdate stA j ab = .ok (some (a', stA'))) :
    (usersCreate stU now newId bu =
      (.createOk "Usuario creado exitosamente" (newUser now newId bu).getPublicProfile,
       stU ++ [newUser now newId bu]) ∧
     (newUser now newId bu).updatedAt = now) ∧
    (analisisCreate stA now newId ba =
      (.createOk "Análisis creado exitosamente" (newAnalisis now newId ba),
       stA ++ [newAnalisis now newId ba]) ∧
     (newAnalisis now newId ba).updatedAt = now) ∧
    (usersUpdate stU now i ub =
      (.updateOk "Usuario actualizado exitosamente" u', stU') ∧
     u'.updatedAt = u.updatedAt) ∧
    (analisisUpdate stA now j ab =
      (.updateOk "Análisis actualizado exitosamente" a', stA') ∧
     a'.updatedAt = a.updatedAt) := by
  have hu' : u' = applyUserBody u ub := by
    by_cases hv : userUpdateErrors ub = []
    · cases he : ub.email with
      | none =>
        simp [User.findByIdAndUpdate, hv, hfind, he] at hupd
        exact hupd.1.symm
      | some e =>
        by_cases hd : (stU.any fun v => (v._id != i) && (v.email == normEmail e)) = true
        · simp [User.findByIdAndUpdate, hv, hfind, he, hd] at hupd
        · simp [User.findByIdAndUpdate, hv, hfind, he, hd] at hupd
          exact hupd.1.symm
    · simp [User.findByIdAndUpdate, hv] at hupd
  have ha' : a' = applyAnalisisBody a ab := by
    by_cases hv : analisisUpdateErrors ab = []
    · cases hn : ab.numero_analisis with
      | none =>
        simp [Analisis.findByIdAndUpdate, hv, hafind, hn] at haupd
        exact haupd.1.symm
      | some nn =>
        by_cases hd : (stA.any fun v => (v._id != j) && (v.numero_analisis == nn)) = true
        · simp [Analisis.findByIdAndUpdate, hv, hafind, hn, hd] at haupd
        · simp [Analisis.findByIdAndUpdate, hv, hafind, hn, hd] at haupd
          exact haupd.1.symm
    · simp [Analisis.findByIdAndUpdate, hv] at haupd
  refine ⟨⟨?_, rfl⟩, ⟨?_, rfl⟩, ⟨?_, ?_⟩, ⟨?_, ?_⟩⟩
  · simp [usersCreate, User.save, hbu, hdu]
  · simp [analisisCreate, Analisis.save, hba, hda]
  · simp [usersUpdate, hupd]
  · rw [hu']
    simp [applyUserBody, hut]
  · simp [analisisUpdate, haupd]
  · rw [ha']
    simp [applyAnalisisBody, haut]

theorem c1_witness :
    userCreateErrors buW = [] ∧
    [uBeto].any (fun v => v.email == normEmail (buW.email.getD "")) = false ∧
    analisisCreateErrors baW = [] ∧
    [aLab1].any (fun v => v.numero_analisis == baW.numero_analisis.getD "") = false ∧
    [uBeto].find? (fun v => v._id == 2) = some uBeto ∧
    ubMail.updatedAt = none ∧
    User.findByIdAndUpdate [uBeto] 2 ubMail =
      .ok (some (applyUserBody uBeto ubMail, [applyUserBody uBeto ubMail])) ∧
    [aLab1].find? (fun v => v._id == 1) = some aLab1 ∧
    bUpd.updatedAt = none ∧
    Analisis.findByIdAndUpdate [aLab1] 1 bUpd =
      .ok (some (applyAnalisisBody aLab1 bUpd, [applyAnalisisBody aLab1 bUpd])) ∧
    (newUser 10 7 buW).updatedAt = 10 ∧
    (newAnalisis 10 7 baW).updatedAt = 10 ∧
    (applyUserBody uBeto ubMail).updatedAt = uBeto.updatedAt ∧
    (applyAnalisisBody aLab1 bUpd).updatedAt = aLab1.updatedAt := by
  have h := c1_theorem [uBeto] [applyUserBody uBeto ubMail] [aLab1] [applyAnalisisBody aLab1 bUpd]
    10 7 2 1 buW baW ubMail bUpd uBeto (applyUserBody uBeto ubMail)
    aLab1 (applyAnalisisBody aLab1 bUpd)
    (by decide) (by decide) (by decide) (by decide) (by decide) rfl rfl
    (by decide) rfl rfl
  exact ⟨by decide, by decide, by decide, by decide, by decide, rfl, rfl,
    by decide, rfl, rfl, h.1.2, h.2.1.2, h.2.2.1.2, h.2.2.2.2⟩

/-- C2 counterexample: updating user 2 with the email already stored for user
1 hits the unique index, and the PUT handler answers a 500 server error, not
a 400 client error naming the field. -/
theorem c2_counterexample :
    usersUpdate [uAna, uBeto] 50 2 ubDup =
      (.serverError "Error al actualizar el usuario"
        "E11000 duplicate key error collection: users index: email_1",
       [uAna, uBeto]) ∧
    ((usersUpdate [uAna, uBeto] 50 2 ubDup).1).status = 500 ∧
    (500 : Nat) ≠ 400 :=
  ⟨by decide, by decide, by decide⟩

/-- C2 (amended): a uniqueness violation on create of either resource is a
400 client error naming the conflicting field, but a uniqueness violation on
update is caught by a catch block that knows only ValidationError, so both
PUT handlers answer a 500 server error with the raw duplicate-key message. -/
theorem c2_theorem (stU : List User) (stA : List Analisis)
    (now newId i j : Nat) (bu ub : UserBody) (ba ab : AnalisisBody)
    (u : User) (a : Analisis) (e n : String)
    (hbu : userCreateErrors bu = [])
    (hdupu : stU.any (fun v => v.email == normEmail (bu.email.getD "")) = true)
    (hba : analisisCreateErrors ba = [])
    (hdupa : stA.any (fun v => v.numero_analisis == ba.numero_analisis.getD "") = true)
    (hub : userUpdateErrors ub = [])
    (hufind : stU.find? (fun v => v._id == i) = some u)
    (hue : ub.email = some e)
    (hdupu2 : stU.any (fun v => (v._id != i) && (v.email == normEmail e)) = true)
    (hab : analisisUpdateErrors ab = [])
    (hafind : stA.find? (fun v => v._id == j) = some a)
    (han : ab.numero_analisis = some n)
    (hdupa2 : stA.any (fun v => (v._id != j) && (v.numero_analisis == n)) = true) :
    usersCreate stU now newId bu = (.conflict "El email ya está registrado", stU) ∧
    ((usersCreate stU now newId bu).1).status = 400 ∧
    analisisCreate stA now newId ba = (.conflict "El número de análisis ya existe", stA) ∧
    ((analisisCreate stA now newId ba).1).status = 400 ∧
    usersUpdate stU now i ub =
      (.serverError "Error al actualizar el usuario"
        "E11000 duplicate key error collection: users index: email_1", stU) ∧
    ((usersUpdate stU now i ub).1).status = 500 ∧
    analisisUpdate stA now j ab =
      (.serverError "Error al actualizar el análisis"
        "E11000 duplicate key error collection: analisis index: numero_analisis_1", stA) ∧
    ((analisisUpdate stA now j ab).1).status = 500 := by
  have h1 : usersCreate stU now newId bu = (.conflict "El email ya está registrado", stU) := by
    simp [usersCreate, User.save, hbu, hdupu]
  have h2 : analisisCreate stA now newId ba =
      (.conflict "El número de análisis ya existe", stA) := by
    simp [analisisCreate, Analisis.save, hba, hdupa]
  have h3 : usersUpdate stU now i ub =
      (.serverError "Error al actualizar el usuario"
        "E11000 duplicate key error collection: users index: email_1", stU) := by
    simp [usersUpdate, User.findByIdAndUpdate, hub, hufind, hue, hdupu2, DbErr.message]
  have h4 : analisisUpdate stA now j ab =
      (.serverError "Error al actualizar el análisis"
        "E11000 duplicate key error collection: analisis index: numero_analisis_1", stA) := by
    simp [analisisUpdate, Analisis.findByIdAndUpdate, hab, hafind, han, hdupa2, DbErr.message]
  exact ⟨h1, by rw [h1]; rfl, h2, by rw [h2]; rfl, h3, by rw [h3]; rfl, h4, by rw [h4]; rfl⟩

theorem c2_witness :
    userCreateErrors buW = [] ∧
    [uAna, uBeto].any (fun v => v.email == normEmail (buW.email.getD "")) = true ∧
    analisisCreateErrors baDup = [] ∧
    [aLab1, aLab2].any (fun v => v.numero_analisis == baDup.numero_analisis.getD "") = true ∧
    userUpdateErrors ubDup = [] ∧
    [uAna, uBeto].find? (fun v => v._id == 2) = some uBeto ∧
    ubDup.email = some "ana@x.com" ∧
    [uAna, uBeto].any (fun v => (v._id != 2) && (v.email == normEmail "ana@x.com")) = true ∧
    analisisUpdateErrors abDup = [] ∧
    [aLab1, aLab2].find? (fun v => v._id == 2) = some aLab2 ∧
    abDup.numero_analisis = some "A-1" ∧
    [aLab1, aLab2].any (fun v => (v._id != 2) && (v.numero_analisis == "A-1")) = true ∧
    ((usersCreate [uAna, uBeto] 50 7 buW).1).status = 400 ∧
    ((analisisCreate [aLab1, aLab2] 50 7 baDup).1).status = 400 ∧
    ((usersUpdate [uAna, uBeto] 50 2 ubDup).1).status = 500 ∧
    ((analisisUpdate [aLab1, aLab2] 50 2 abDup).1).status = 500 := by
  have h := c2_theorem [uAna, uBeto] [aLab1, aLab2] 50 7 2 2 buW ubDup baDup abDup
    uBeto aLab2 "ana@x.com" "A-1" (by decide) (by decide) (by decide) (by decide)
    (by decide) (by decide) rfl (by decide) (by decide) (by decide) rfl (by decide)
  exact ⟨by decide, by decide, by decide, by decide, by decide, by decide, rfl, by decide,
    by decide, by decide, rfl, by decide, h.2.1, h.2.2.2.1, h.2.2.2.2.2.1, h.2.2.2.2.2.2.2⟩

/-- C3: deleting an existing user answers 200, flips its active flag to
false, removes it from every subsequent list response, and get-by-id still
answers 200 with the record; deleting an existing analysis answers 200 and a
subsequent get-by-id answers 404. -/
theorem c3_theorem (stU : List User) (stA : List Analisis) (now i j : Nat)
    (u : User) (a : Analisis) (v : User)
    (hndU : (stU.map User._id).Nodup)
    (hndA : (stA.map Analisis._id).Nodup)
    (hfu : stU.find? (fun w => w._id == i) = some u)
    (hfa : stA.find? (fun w => w._id == j) = some a)
    (hv : v ∈ (usersList (usersDelete stU now i).2).listData) :
    (usersDelete stU now i).1 = .deleteOk "Usuario eliminado exitosamente" ∧
    usersGetById (usersDelete stU now i).2 i = .getOk { u with isActive := false } ∧
    (usersGetById (usersDelete stU now i).2 i).status = 200 ∧
    ({ u with isActive := false } : User).isActive = false ∧
    v._id ≠ i ∧
    (analisisDelete stA now j).1 = .deleteOk "Análisis eliminado exitosamente" ∧
    analisisGetById (analisisDelete stA now j).2 j = .notFound "Análisis no encontrado" ∧
    (analisisGetById (analisisDelete stA now j).2 j).status = 404 := by
  have hst2 : (usersDelete stU now i).2 =
      updateFirst (fun w => w._id == i) (fun w => { w with isActive := false }) stU := by
    simp [usersDelete, hfu]
  have hr1 : (usersDelete stU now i).1 = .deleteOk "Usuario eliminado exitosamente" := by
    simp [usersDelete, hfu]
  have hfind2 : ((usersDelete stU now i).2).find? (fun w => w._id == i) =
      some { u with isActive := false } := by
    have hmap := find?_updateFirst_map
      (p := fun w : User => w._id == i)
      (f := fun w : User => { w with isActive := false }) (fun w => rfl) stU
    rw [hst2, hmap, hfu]
    rfl
  have hget : usersGetById (usersDelete stU now i).2 i =
      .getOk { u with isActive := false } := by
    simp [usersGetById, hfind2]
  have hvne : v._id ≠ i := by
    intro heq
    simp [usersList, UResp.listData, List.mem_filter] at hv
    have hmem : v ∈ updateFirst (fun w => w._id == i)
        (fun w => { w with isActive := false }) stU := by
      rw [← hst2]
      exact hv.1
    have := eq_of_mem_updateFirst (k := User._id) hndU hfu hmem heq
    rw [this] at hv
    simp at hv
  have hsta : (analisisDelete stA now j).2 = removeFirst (fun w => w._id == j) stA := by
    simp [analisisDelete, hfa]
  have hra : (analisisDelete stA now j).1 = .deleteOk "Análisis eliminado exitosamente" := by
    simp [analisisDelete, hfa]
  have hnone : ((analisisDelete stA now j).2).find? (fun w => w._id == j) = none := by
    rw [hsta]
    exact find?_removeFirst_none (k := Analisis._id) hndA
  have hgeta : analisisGetById (analisisDelete stA now j).2 j =
      .notFound "Análisis no encontrado" := by
    simp [analisisGetById, hnone]
  exact ⟨hr1, hget, by rw [hget]; rfl, rfl, hvne, hra, hgeta, by rw [hgeta]; rfl⟩

theorem c3_witness :
    ([uAna, uBeto].map User._id).Nodup ∧
    ([aLab1, aLab2].map Analisis._id).Nodup ∧
    [uAna, uBeto].find? (fun w => w._id == 1) = some uAna ∧
    [aLab1, aLab2].find? (fun w => w._id == 1) = some aLab1 ∧
    (uBeto ∈ (usersList (usersDelete [uAna, uBeto] 9 1).2).listData) ∧
    usersGetById (usersDelete [uAna, uBeto] 9 1).2 1 = .getOk { uAna with isActive := false } ∧
    uBeto._id ≠ 1 ∧
    analisisGetById (analisisDelete [aLab1, aLab2] 9 1).2 1 = .notFound "Análisis no encontrado" := by
  have h := c3_theorem [uAna, uBeto] [aLab1, aLab2] 9 1 1 uAna aLab1 uBeto
    (by decide) (by decide) (by decide) (by decide) (by decide)
  exact ⟨by decide, by decide, by decide, by decide, by decide,
    h.2.1, h.2.2.2.2.1, h.2.2.2.2.2.2.1⟩

/-- C6: a create of either resource whose body violates schema constraints is
answered 400 with a details array holding exactly the messages of every
violated path, the store unchanged; a missing required field contributes its
message. -/
theorem c6_theorem (stU : List User) (stA : List Analisis) (nowU nowA idU idA : Nat)
    (bu : UserBody) (ba : AnalisisBody)
    (hbu : userCreateErrors bu ≠ []) (hba : analisisCreateErrors ba ≠ []) :
    usersCreate stU nowU idU bu =
      (.invalid "Errores de validación" (userCreateErrors bu), stU) ∧
    ((usersCreate stU nowU idU bu).1).status = 400 ∧
    analisisCreate stA nowA idA ba =
      (.invalid "Errores de validación" (analisisCreateErrors ba), stA) ∧
    ((analisisCreate stA nowA idA ba).1).status = 400 ∧
    (bu.name = none → "El nombre es obligatorio" ∈ userCreateErrors bu) ∧
    (ba.laboratorio = none → "Path `laboratorio` is required." ∈ analisisCreateErrors ba) := by
  have h1 : usersCreate stU nowU idU bu =
      (.invalid "Errores de validación" (userCreateErrors bu), stU) := by
    simp [usersCreate, User.save, hbu]
  have h2 : analisisCreate stA nowA idA ba =
      (.invalid "Errores de validación" (analisisCreateErrors ba), stA) := by
    simp [analisisCreate, Analisis.save, hba]
  refine ⟨h1, by rw [h1]; rfl, h2, by rw [h2]; rfl, ?_, ?_⟩
  · intro hn
    simp [userCreateErrors, nameErrors, hn]
  · intro hl
    simp [analisisCreateErrors, requiredError, hl]

theorem c6_witness :
    userCreateErrors { email := some "ana@x.com" } ≠ [] ∧
    analisisCreateErrors { numero_analisis := some "A-9" } ≠ [] ∧
    usersCreate [] 5 7 { email := some "ana@x.com" } =
      (.invalid "Errores de validación" ["El nombre es obligatorio"], []) ∧
    (({ email := some "ana@x.com" } : UserBody).name = none →
      "El nombre es obligatorio" ∈ userCreateErrors { email := some "ana@x.com" }) := by
  have h := c6_theorem [] [] 5 5 7 7 { email := some "ana@x.com" }
    { numero_analisis := some "A-9" } (by decide) (by decide)
  exact ⟨by decide, by decide, by decide, h.2.2.2.2.1⟩

/-- C7: a user update whose body violates field validation is answered 400
listing each violated message, while the analisis update route never answers
400: its status is always 200, 404 or 500. -/
theorem c7_theorem (stU : List User) (stA : List Analisis) (nowU nowA i j : Nat)
    (bu : UserBody) (ba : AnalisisBody)
    (hbu : userUpdateErrors bu ≠ []) :
    usersUpdate stU nowU i bu =
      (.invalid "Errores de validación" (userUpdateErrors bu), stU) ∧
    ((usersUpdate stU nowU i bu).1).status = 400 ∧
    ((analisisUpdate stA nowA j ba).1).status ≠ 400 ∧
    (((analisisUpdate stA nowA j ba).1).status = 200 ∨
     ((analisisUpdate stA nowA j ba).1).status = 404 ∨
     ((analisisUpdate stA nowA j ba).1).status = 500) := by
  have h1 : usersUpdate stU nowU i bu =
      (.invalid "Errores de validación" (userUpdateErrors bu), stU) := by
    simp [usersUpdate, User.findByIdAndUpdate, hbu]
  have hcase : ((analisisUpdate stA nowA j ba).1).status = 200 ∨
      ((analisisUpdate stA nowA j ba).1).status = 404 ∨
      ((analisisUpdate stA nowA j ba).1).status = 500 := by
    cases hr : Analisis.findByIdAndUpdate stA j ba with
    | ok o =>
      cases o with
      | none => right; left; simp [analisisUpdate, hr, AResp.status]
      | some pr => left; simp [analisisUpdate, hr, AResp.status]
    | error e => right; right; simp [analisisUpdate, hr, AResp.status]
  have hne : ((analisisUpdate stA nowA j ba).1).status ≠ 400 := by
    rcases hcase with h | h | h <;> rw [h] <;> decide
  exact ⟨h1, by rw [h1]; rfl, hne, hcase⟩

theorem c7_witness :
    userUpdateErrors { name := some "" } ≠ [] ∧
    usersUpdate [uAna] 9 1 { name := some "" } =
      (.invalid "Errores de validación" ["El nombre es obligatorio"], [uAna]) ∧
    ((analisisUpdate [aLab1] 9 1 bBad).1).status ≠ 400 ∧
    ((analisisUpdate [aLab1] 9 1 bBad).1).status = 500 := by
  have h := c7_theorem [uAna] [aLab1] 9 9 1 1 { name := some "" } bBad (by decide)
  exact ⟨by decide, by decide, h.2.2.1, by decide⟩

/-- C5: a stored analysis estado is always one of the four enum values:
creation without estado stores the default pendiente; a create carrying an
estado outside the enum is answered 400 by a store-layer ValidationError and
an update carrying one is rejected by the same store-layer ValidationError
(surfaced by the PUT handler as a 500), the store unchanged in both cases;
and every create, update or delete preserves enum membership of every stored
record. -/
theorem c5_theorem (st : List Analisis) (now newId i nid k kd : Nat)
    (b0 b1 bC bU : AnalisisBody) (e : String) (aC aU aD : Analisis)
    (hall : ∀ a ∈ st, estadoValid a = true)
    (h0e : b0.estado = none)
    (h0v : analisisCreateErrors b0 = [])
    (h0d : st.any (fun a => a.numero_analisis == b0.numero_analisis.getD "") = false)
    (h1e : b1.estado = some e)
    (h1bad : estadoEnum.contains e = false)
    (hmC : aC ∈ (analisisCreate st now nid bC).2)
    (hmU : aU ∈ (analisisUpdate st now k bU).2)
    (hmD : aD ∈ (analisisDelete st now kd).2) :
    (analisisCreate st now newId b0 =
      (.createOk "Análisis creado exitosamente" (newAnalisis now newId b0),
       st ++ [newAnalisis now newId b0]) ∧
     (newAnalisis now newId b0).estado = "pendiente") ∧
    (analisisCreate st now newId b1 =
      (.invalid "Errores de validación" (analisisCreateErrors b1), st) ∧
     ((analisisCreate st now newId b1).1).status = 400) ∧
    (Analisis.findByIdAndUpdate st i b1 = .error (.validation (analisisUpdateErrors b1)) ∧
     (analisisUpdate st now i b1).2 = st ∧
     ((analisisUpdate st now i b1).1).status = 500) ∧
    estadoValid aC = true ∧ estadoValid aU = true ∧ estadoValid aD = true := by
  have hv1c : analisisCreateErrors b1 ≠ [] := by
    simp [analisisCreateErrors, estadoErrors, h1e]
    intros
    simpa using h1bad
  have hv1u : analisisUpdateErrors b1 ≠ [] := by
    simp [analisisUpdateErrors, estadoErrors, h1e]
    intros
    simpa using h1bad
  have hd1 : analisisCreate st now newId b0 =
      (.createOk "Análisis creado exitosamente" (newAnalisis now newId b0),
       st ++ [newAnalisis now newId b0]) := by
    simp [analisisCreate, Analisis.save, h0v, h0d]
  have hd2 : (newAnalisis now newId b0).estado = "pendiente" := by
    simp [newAnalisis, h0e]
  have hrc : analisisCreate st now newId b1 =
      (.invalid "Errores de validación" (analisisCreateErrors b1), st) := by
    simp [analisisCreate, Analisis.save, hv1c]
  have hfu1 : Analisis.findByIdAndUpdate st i b1 =
      .error (.validation (analisisUpdateErrors b1)) := by
    simp [Analisis.findByIdAndUpdate, hv1u]
  have hup : analisisUpdate st now i b1 =
      (.serverError "Error al actualizar el análisis"
        ((DbErr.validation (analisisUpdateErrors b1)).message), st) := by
    simp [analisisUpdate, hfu1]
  have hvalidC : estadoValid aC = true := by
    by_cases hvc : analisisCreateErrors bC = []
    · by_cases hdc : (st.any fun a2 => a2.numero_analisis == bC.numero_analisis.getD "") = true
      · simp [analisisCreate, Analisis.save, hvc, hdc] at hmC
        exact hall aC hmC
      · simp [analisisCreate, Analisis.save, hvc, hdc] at hmC
        rcases hmC with hm | hm
        · exact hall aC hm
        · rw [hm]
          exact estadoValid_newAnalisis now nid bC hvc
    · simp [analisisCreate, Analisis.save, hvc] at hmC
      exact hall aC hmC
  have hvalidU : estadoValid aU = true := by
    by_cases hvu : analisisUpdateErrors bU = []
    · cases hf : List.find? (fun w => w._id == k) st with
      | none =>
        simp [analisisUpdate, Analisis.findByIdAndUpdate, hvu, hf] at hmU
        exact hall aU hmU
      | some a0 =>
        cases hbn : bU.numero_analisis with
        | none =>
          simp [analisisUpdate, Analisis.findByIdAndUpdate, hvu, hf, hbn] at hmU
          rcases mem_of_mem_updateFirst_const hmU with hm | hm
          · exact hall aU hm
          · rw [hm]
            exact estadoValid_applyAnalisisBody a0 bU
              (hall a0 (List.mem_of_find?_eq_some hf)) hvu
        | some nn =>
          by_cases hd : (st.any fun v => (v._id != k) && (v.numero_analisis == nn)) = true
          · simp [analisisUpdate, Analisis.findByIdAndUpdate, hvu, hf, hbn, hd] at hmU
            exact hall aU hmU
          · simp [analisisUpdate, Analisis.findByIdAndUpdate, hvu, hf, hbn, hd] at hmU
            rcases mem_of_mem_updateFirst_const hmU with hm | hm
            · exact hall aU hm
            · rw [hm]
              exact estadoValid_applyAnalisisBody a0 bU
                (hall a0 (List.mem_of_find?_eq_some hf)) hvu
    · simp [analisisUpdate, Analisis.findByIdAndUpdate, hvu] at hmU
      exact hall aU hmU
  have hvalidD : estadoValid aD = true := by
    cases hfd : List.find? (fun w => w._id == kd) st with
    | none =>
      simp [analisisDelete, hfd] at hmD
      exact hall aD hmD
    | some a0 =>
      simp [analisisDelete, hfd] at hmD
      exact hall aD (mem_of_mem_removeFirst hmD)
  exact ⟨⟨hd1, hd2⟩, ⟨hrc, by rw [hrc]; rfl⟩,
    ⟨hfu1, by rw [hup], by rw [hup]; rfl⟩, hvalidC, hvalidU, hvalidD⟩

theorem c5_witness :
    analisisCreateErrors baW = [] ∧
    baW.estado = none ∧
    bBad.estado = some "aprobado" ∧
    estadoEnum.contains "aprobado" = false ∧
    (newAnalisis 5 9 baW).estado = "pendiente" ∧
    ((analisisCreate [aLab1] 5 9 bBad).1).status = 400 ∧
    ((analisisUpdate [aLab1] 5 1 bBad).1).status = 500 ∧
    estadoValid (newAnalisis 5 9 baW) = true ∧
    estadoValid (applyAnalisisBody aLab1 bUpd) = true ∧
    estadoValid aLab1 = true := by
  have h := c5_theorem [aLab1] 5 9 1 9 1 2 baW bBad baW bUpd "aprobado"
    (newAnalisis 5 9 baW) (applyAnalisisBody aLab1 bUpd) aLab1
    (by decide) rfl (by decide) (by decide) rfl (by decide)
    (by decide) (by decide) (by decide)
  exact ⟨by decide, rfl, rfl, by decide, h.1.2, h.2.1.2, h.2.2.1.2.2,
    h.2.2.2.1, h.2.2.2.2.1, h.2.2.2.2.2⟩

/-- C8 counterexample: creating a user stores it, but the 201 payload is the
getPublicProfile projection (key id, no updatedAt) while the subsequent
get-by-id serialises the full document (key _id, with updatedAt): the two
records are not identical. -/
theorem c8_counterexample :
    usersCreate [] 100 7 buW =
      (.createOk "Usuario creado exitosamente" (User.getPublicProfile uC8), [uC8]) ∧
    usersGetById [uC8] 7 = .getOk uC8 ∧
    User.toJson uC8 ≠ User.getPublicProfile uC8 :=
  ⟨by decide, by decide, by decide⟩

/-- C8 (amended): creating a record of either resource with a fresh unique
key answers 201, and get-by-id at the id of the create response finds the
stored record; for analyses the fetched record is the very record of the
create payload, while for users the create payload is the getPublicProfile
projection of the fetched record (the fetched document additionally carries
updatedAt under its stored keys). -/
theorem c8_theorem (stU : List User) (stA : List Analisis) (now nu na : Nat)
    (bu : UserBody) (ba : AnalisisBody)
    (hbu : userCreateErrors bu = [])
    (hdu : stU.any (fun v => v.email == normEmail (bu.email.getD "")) = false)
    (hfu : ∀ v ∈ stU, v._id ≠ nu)
    (hba : analisisCreateErrors ba = [])
    (hda : stA.any (fun v => v.numero_analisis == ba.numero_analisis.getD "") = false)
    (hfa : ∀ v ∈ stA, v._id ≠ na) :
    usersCreate stU now nu bu =
      (.createOk "Usuario creado exitosamente" (newUser now nu bu).getPublicProfile,
       stU ++ [newUser now nu bu]) ∧
    ((usersCreate stU now nu bu).1).status = 201 ∧
    usersGetById (usersCreate stU now nu bu).2 nu = .getOk (newUser now nu bu) ∧
    analisisCreate stA now na ba =
      (.createOk "Análisis creado exitosamente" (newAnalisis now na ba),
       stA ++ [newAnalisis now na ba]) ∧
    ((analisisCreate stA now na ba).1).status = 201 ∧
    analisisGetById (analisisCreate stA now na ba).2 na = .getOk (newAnalisis now na ba) := by
  have hcu : usersCreate stU now nu bu =
      (.createOk "Usuario creado exitosamente" (newUser now nu bu).getPublicProfile,
       stU ++ [newUser now nu bu]) := by
    simp [usersCreate, User.save, hbu, hdu]
  have hfnU : stU.find? (fun v => v._id == nu) = none := by
    rw [List.find?_eq_none]
    intro v hv
    simpa using hfu v hv
  have hgu : usersGetById (stU ++ [newUser now nu bu]) nu = .getOk (newUser now nu bu) := by
    unfold usersGetById
    rw [find?_append_none _ hfnU]
    simp [List.find?, newUser]
  have hca : analisisCreate stA now na ba =
      (.createOk "Análisis creado exitosamente" (newAnalisis now na ba),
       stA ++ [newAnalisis now na ba]) := by
    simp [analisisCreate, Analisis.save, hba, hda]
  have hfnA : stA.find? (fun v => v._id == na) = none := by
    rw [List.find?_eq_none]
    intro v hv
    simpa using hfa v hv
  have hga : analisisGetById (stA ++ [newAnalisis now na ba]) na =
      .getOk (newAnalisis now na ba) := by
    unfold analisisGetById
    rw [find?_append_none _ hfnA]
    simp [List.find?, newAnalisis]
  exact ⟨hcu, by rw [hcu]; rfl, by rw [hcu]; exact hgu,
    hca, by rw [hca]; rfl, by rw [hca]; exact hga⟩

theorem c8_witness :
    userCreateErrors buW = [] ∧
    [uBeto].any (fun v => v.email == normEmail (buW.email.getD "")) = false ∧
    analisisCreateErrors baW = [] ∧
    [aLab1].any (fun v => v.numero_analisis == baW.numero_analisis.getD "") = false ∧
    ((usersCreate [uBeto] 100 7 buW).1).status = 201 ∧
    usersGetById (usersCreate [uBeto] 100 7 buW).2 7 = .getOk (newUser 100 7 buW) ∧
    ((analisisCreate [aLab1] 100 9 baW).1).status = 201 ∧
    analisisGetById (analisisCreate [aLab1] 100 9 baW).2 9 = .getOk (newAnalisis 100 9 baW) := by
  have h := c8_theorem [uBeto] [aLab1] 100 7 9 buW baW (by decide) (by decide)
    (by decide) (by decide) (by decide) (by decide)
  exact ⟨by decide, by decide, by decide, by decide,
    h.2.1, h.2.2.1, h.2.2.2.2.1, h.2.2.2.2.2⟩

/-- C9: a soft-deleted user is reactivated through the public interface: a
PUT at its id whose body sets isActive true answers 200, stores the record
with the active flag true, and the record reappears in the list response. -/
theorem c9_theorem (st : List User) (now i : Nat) (u : User)
    (hf : st.find? (fun v => v._id == i) = some u) (hin : u.isActive = false) :
    usersUpdate st now i ubAct =
      (.updateOk "Usuario actualizado exitosamente" { u with isActive := true },
       updateFirst (fun v => v._id == i) (fun _ => { u with isActive := true }) st) ∧
    ((usersUpdate st now i ubAct).1).status = 200 ∧
    ({ u with isActive := true } : User).isActive = true ∧
    { u with isActive := true } ∈ (usersList (usersUpdate st now i ubAct).2).listData := by
  have hval : userUpdateErrors
      { name := none, email := none, age := none, isActive := some true,
        createdAt := none, updatedAt := none } = [] := by decide
  have h1 : usersUpdate st now i ubAct =
      (.updateOk "Usuario actualizado exitosamente" { u with isActive := true },
       updateFirst (fun v => v._id == i) (fun _ => { u with isActive := true }) st) := by
    simp [usersUpdate, User.findByIdAndUpdate, ubAct, hf, applyUserBody, hval]
  have hmem : { u with isActive := true } ∈
      updateFirst (fun v => v._id == i) (fun _ => { u with isActive := true }) st :=
    mem_updateFirst_self hf
  refine ⟨h1, by rw [h1]; rfl, rfl, ?_⟩
  rw [h1]
  simp [usersList, UResp.listData, List.mem_filter]
  exact hmem

theorem c9_witness :
    [uAna, uCarla].find? (fun v => v._id == 3) = some uCarla ∧
    uCarla.isActive = false ∧
    ((usersUpdate [uAna, uCarla] 9 3 ubAct).1).status = 200 ∧
    ({ uCarla with isActive := true } : User).isActive = true ∧
    { uCarla with isActive := true } ∈
      (usersList (usersUpdate [uAna, uCarla] 9 3 ubAct).2).listData := by
  have h := c9_theorem [uAna, uCarla] 9 3 uCarla (by decide) (by decide)
  exact ⟨by decide, by decide, h.2.1, h.2.2.1, h.2.2.2⟩

/-- C10: the user delete answers 404 exactly when no record carries the id,
whatever its active flag; deleting an already soft-deleted user succeeds
again with 200 and leaves the record inactive; a second delete of the same
analysis id answers 404. -/
theorem c10_theorem (st st2 : List User) (stA : List Analisis) (now i p j : Nat)
    (u : User) (a : Analisis)
    (hf : st.find? (fun v => v._id == i) = some u)
    (hndA : (stA.map Analisis._id).Nodup)
    (hfa : stA.find? (fun v => v._id == j) = some a) :
    (((usersDelete st2 now p).1 = .notFound "Usuario no encontrado") ↔
      (∀ v ∈ st2, v._id ≠ p)) ∧
    (usersDelete st now i).1 = .deleteOk "Usuario eliminado exitosamente" ∧
    (usersDelete (usersDelete st now i).2 now i).1 =
      .deleteOk "Usuario eliminado exitosamente" ∧
    ((usersDelete (usersDelete st now i).2 now i).1).status = 200 ∧
    usersGetById (usersDelete (usersDelete st now i).2 now i).2 i =
      .getOk { u with isActive := false } ∧
    ({ u with isActive := false } : User).isActive = false ∧
    (analisisDelete stA now j).1 = .deleteOk "Análisis eliminado exitosamente" ∧
    (analisisDelete (analisisDelete stA now j).2 now j).1 =
      .notFound "Análisis no encontrado" ∧
    ((analisisDelete (analisisDelete stA now j).2 now j).1).status = 404 := by
  have hiff : ((usersDelete st2 now p).1 = .notFound "Usuario no encontrado") ↔
      (∀ v ∈ st2, v._id ≠ p) := by
    cases hfp : st2.find? (fun v => v._id == p) with
    | none =>
      simp only [usersDelete, hfp]
      constructor
      · intro _ v hv
        have := List.find?_eq_none.mp hfp v hv
        simpa using this
      · intro _
        trivial
    | some w =>
      simp only [usersDelete, hfp]
      constructor
      · intro hcon
        exact absurd hcon (by simp)
      · intro hall2
        exfalso
        have hw : w ∈ st2 := List.mem_of_find?_eq_some hfp
        have hwp := List.find?_some hfp
        exact hall2 w hw (by simpa using hwp)
  have hDel : ∀ (s : List User) (w : User), s.find? (fun v => v._id == i) = some w →
      usersDelete s now i = (.deleteOk "Usuario eliminado exitosamente",
        updateFirst (fun v => v._id == i) (fun v => { v with isActive := false }) s) := by
    intro s w hw
    simp [usersDelete, hw]
  have h1 := hDel st u hf
  have hf1 : (updateFirst (fun v => v._id == i)
      (fun v => { v with isActive := false }) st).find? (fun v => v._id == i) =
      some { u with isActive := false } := by
    rw [find?_updateFirst_map (p := fun v : User => v._id == i)
      (f := fun v : User => { v with isActive := false }) (fun v => rfl) st, hf]
    rfl
  have h2 := hDel (updateFirst (fun v => v._id == i)
    (fun v => { v with isActive := false }) st) { u with isActive := false } hf1
  have hf2 : (updateFirst (fun v => v._id == i) (fun v => { v with isActive := false })
      (updateFirst (fun v => v._id == i) (fun v => { v with isActive := false }) st)).find?
      (fun v => v._id == i) = some { u with isActive := false } := by
    rw [find?_updateFirst_map (p := fun v : User => v._id == i)
      (f := fun v : User => { v with isActive := false }) (fun v => rfl), hf1]
    rfl
  have hd1 : (usersDelete st now i).1 = .deleteOk "Usuario eliminado exitosamente" := by
    rw [h1]
  have hd2 : (usersDelete (usersDelete st now i).2 now i).1 =
      .deleteOk "Usuario eliminado exitosamente" := by
    rw [h1]
    exact congrArg Prod.fst h2
  have hg2 : usersGetById (usersDelete (usersDelete st now i).2 now i).2 i =
      .getOk { u with isActive := false } := by
    rw [h1]
    have hb : (usersDelete (updateFirst (fun v => v._id == i)
        (fun v => { v with isActive := false }) st) now i).2 =
        updateFirst (fun v => v._id == i) (fun v => { v with isActive := false })
          (updateFirst (fun v => v._id == i) (fun v => { v with isActive := false }) st) :=
      congrArg Prod.snd h2
    rw [show ((UResp.deleteOk "Usuario eliminado exitosamente",
        updateFirst (fun v => v._id == i) (fun v => { v with isActive := false }) st) :
        UResp × List User).2 =
      updateFirst (fun v => v._id == i) (fun v => { v with isActive := false }) st from rfl]
    rw [hb]
    simp [usersGetById, hf2]
  have hADel : analisisDelete stA now j = (.deleteOk "Análisis eliminado exitosamente",
      removeFirst (fun v => v._id == j) stA) := by
    simp [analisisDelete, hfa]
  have hda1 : (analisisDelete stA now j).1 = .deleteOk "Análisis eliminado exitosamente" := by
    rw [hADel]
  have hfa2 : (removeFirst (fun v => v._id == j) stA).find? (fun v => v._id == j) = none :=
    find?_removeFirst_none (k := Analisis._id) hndA
  have hda2 : (analisisDelete (analisisDelete stA now j).2 now j).1 =
      .notFound "Análisis no encontrado" := by
    rw [hADel]
    show (analisisDelete (removeFirst (fun v => v._id == j) stA) now j).1 =
      .notFound "Análisis no encontrado"
    simp [analisisDelete, hfa2]
  exact ⟨hiff, hd1, hd2, by rw [hd2]; rfl, hg2, rfl, hda1, hda2, by rw [hda2]; rfl⟩

theorem c10_witness :
    [uAna, uCarla].find? (fun v => v._id == 3) = some uCarla ∧
    ([aLab1, aLab2].map Analisis._id).Nodup ∧
    [aLab1, aLab2].find? (fun v => v._id == 1) = some aLab1 ∧
    (((usersDelete [uBeto] 9 5).1 = .notFound "Usuario no encontrado") ↔
      (∀ v ∈ [uBeto], v._id ≠ 5)) ∧
    (usersDelete (usersDelete [uAna, uCarla] 9 3).2 9 3).1 =
      .deleteOk "Usuario eliminado exitosamente" ∧
    usersGetById (usersDelete (usersDelete [uAna, uCarla] 9 3).2 9 3).2 3 =
      .getOk { uCarla with isActive := false } ∧
    (analisisDelete (analisisDelete [aLab1, aLab2] 9 1).2 9 1).1 =
      .notFound "Análisis no encontrado" := by
  have h := c10_theorem [uAna, uCarla] [uBeto] [aLab1, aLab2] 9 3 5 1 uCarla aLab1
    (by decide) (by decide) (by decide)
  exact ⟨by decide, by decide, by decide, h.1, h.2.2.1, h.2.2.2.2.1, h.2.2.2.2.2.2.2.1⟩
